import Mathlib

/-!
# Verification of the Collectors async-database core

Shallow embedding of `src/database.py` and `src/config.py`: the pooled
query primitive, the readiness gate, the bridge entry points, and the
three manual cascade-delete transactions, together with theorems that
settle the specification claims about them.
-/

namespace Collectors

/-- A Python value as it matters for truthiness tests in `database.py`
(`if data[...]`, `if not self.pool`): `None`, an integer, or a string. -/
inductive PyVal where
  | none
  | int (n : Int)
  | str (s : String)
  deriving DecidableEq

/-- Python truthiness: `None`, `0` and `""` are falsy. -/
def PyVal.truthy : PyVal → Bool
  | .none => false
  | .int n => n != 0
  | .str s => s != ""

/-- A row of the `collection` table, restricted to the columns the
cascade-delete logic reads (`id`, `author`). -/
structure CollectionRow where
  id : Nat
  author : Nat
  deriving DecidableEq

/-- A row of the `collection_item` join table (`id_collection`, `id_catalog`). -/
structure CollectionItemRow where
  id : Nat
  id_collection : Nat
  id_catalog : Nat
  deriving DecidableEq

/-- The database state the cascade deletes traverse: `collector`,
`collection`, `collection_item` and `catalog` rows (keyed by id for the
tables whose other columns the deletes never touch). -/
structure DBState where
  collectors : List Nat
  collections : List CollectionRow
  collectionItems : List CollectionItemRow
  catalog : List Nat
  deriving DecidableEq

/-- The SQL statements issued inside the three delete transactions of
`database.py`, plus the transaction-control statements. -/
inductive Stmt where
  | selectCollections (author : Nat)
  | selectItemCountByCollection (idc : Nat)
  | selectItemCountByCatalog (idk : Nat)
  | deleteItemsByCollection (idc : Nat)
  | deleteItemsByCatalog (idk : Nat)
  | deleteCollectionsByAuthor (author : Nat)
  | deleteCollectionRow (i : Nat)
  | deleteCollectorRow (i : Nat)
  | deleteCatalogRow (i : Nat)
  | commit
  | rollback
  deriving DecidableEq

/-- Effect of one statement on the working database state (selects read
only; each `DELETE ... WHERE` filters the matching rows out). -/
def applyStmt : Stmt → DBState → DBState
  | .selectCollections _, db => db
  | .selectItemCountByCollection _, db => db
  | .selectItemCountByCatalog _, db => db
  | .deleteItemsByCollection c, db =>
      { db with collectionItems := db.collectionItems.filter (fun it => !(it.id_collection == c)) }
  | .deleteItemsByCatalog k, db =>
      { db with collectionItems := db.collectionItems.filter (fun it => !(it.id_catalog == k)) }
  | .deleteCollectionsByAuthor a, db =>
      { db with collections := db.collections.filter (fun c => !(c.author == a)) }
  | .deleteCollectionRow i, db =>
      { db with collections := db.collections.filter (fun c => !(c.id == i)) }
  | .deleteCollectorRow i, db =>
      { db with collectors := db.collectors.filter (fun c => !(c == i)) }
  | .deleteCatalogRow i, db =>
      { db with catalog := db.catalog.filter (fun k => !(k == i)) }
  | .commit, db => db
  | .rollback, db => db

/-- Result of `SELECT id FROM collection WHERE author = %s` (the ids, in
table order), as fetched at the start of `_delete_collector`. -/
def findCollections (db : DBState) (author : Nat) : List Nat :=
  (db.collections.filter (fun c => c.author == author)).map (fun c => c.id)

/-- Result of `SELECT COUNT(*) FROM collection_item WHERE id_collection = %s`. -/
def itemCountByCollection (db : DBState) (idc : Nat) : Nat :=
  (db.collectionItems.filter (fun it => it.id_collection == idc)).length

/-- Result of `SELECT COUNT(*) FROM collection_item WHERE id_catalog = %s`. -/
def itemCountByCatalog (db : DBState) (idk : Nat) : Nat :=
  (db.collectionItems.filter (fun it => it.id_catalog == idk)).length

/-- The statement sequence of `_delete_collector`: find the collections of
the author, delete each collection's items (one statement per collection),
bulk-delete the collections, then delete the collector row. -/
def collectorPlan (db : DBState) (i : Nat) : List Stmt :=
  Stmt.selectCollections i ::
    ((findCollections db i).map Stmt.deleteItemsByCollection ++
      [Stmt.deleteCollectionsByAuthor i, Stmt.deleteCollectorRow i])

/-- The statement sequence of `_delete_collection`: count the dependent
items, delete them only when the count is positive, then delete the
collection row. -/
def collectionPlan (db : DBState) (i : Nat) : List Stmt :=
  Stmt.selectItemCountByCollection i ::
    ((if itemCountByCollection db i > 0 then [Stmt.deleteItemsByCollection i] else []) ++
      [Stmt.deleteCollectionRow i])

/-- The statement sequence of `_delete_catalog_item`: count the dependent
items, delete them only when the count is positive, then delete the
catalog row. -/
def catalogPlan (db : DBState) (i : Nat) : List Stmt :=
  Stmt.selectItemCountByCatalog i ::
    ((if itemCountByCatalog db i > 0 then [Stmt.deleteItemsByCatalog i] else []) ++
      [Stmt.deleteCatalogRow i])

/-- Outcome of an awaited coroutine: a returned value or a raised exception
(the re-raise at the end of each delete transaction). -/
inductive PyOutcome where
  | ok (b : Bool)
  | raised (msg : String)
  deriving DecidableEq

/-- Run the statements of a transaction in order on the working state.
`fails s = true` means executing `s` raises. Returns the working state on
success (`some`) or `none` when a statement raised, together with the list
of statements actually issued (the failing one included). -/
def runStmtsAux (fails : Stmt → Bool) : List Stmt → DBState → Option DBState × List Stmt
  | [], w => (some w, [])
  | s :: rest, w =>
    if fails s then (Option.none, [s])
    else
      let r := runStmtsAux fails rest (applyStmt s w)
      (r.1, s :: r.2)

/-- Result of one whole delete operation: the value returned or exception
re-raised, the durable database state afterwards, the statements issued on
the dedicated connection, and whether that connection was opened and
closed. -/
structure OpResult where
  result : PyOutcome
  finalDb : DBState
  trace : List Stmt
  connOpened : Bool
  connClosed : Bool
  deriving DecidableEq

/-- The shared shape of `_delete_collector` / `_delete_collection` /
`_delete_catalog_item`: open a dedicated connection with autocommit off
(failure aborts with nothing to roll back and no connection to close);
run the plan; on success `commit` and return `True`; on a statement
exception `rollback` (the durable state stays as it was when the
transaction opened) and re-raise; the `finally` block closes the
connection whenever one was obtained. -/
def runDeleteOp (connectFails : Bool) (fails : Stmt → Bool) (db : DBState)
    (plan : List Stmt) : OpResult :=
  if connectFails then
    { result := .raised "connect failed", finalDb := db, trace := [],
      connOpened := false, connClosed := false }
  else
    let r := runStmtsAux fails plan db
    match r.1 with
    | some w =>
        { result := .ok true, finalDb := w, trace := r.2 ++ [Stmt.commit],
          connOpened := true, connClosed := true }
    | Option.none =>
        { result := .raised "statement failed", finalDb := db,
          trace := r.2 ++ [Stmt.rollback], connOpened := true, connClosed := true }

/-- `_delete_collector` as a transaction on the database state. -/
def deleteCollectorOp (connectFails : Bool) (fails : Stmt → Bool)
    (db : DBState) (i : Nat) : OpResult :=
  runDeleteOp connectFails fails db (collectorPlan db i)

/-- `_delete_collection` as a transaction on the database state. -/
def deleteCollectionOp (connectFails : Bool) (fails : Stmt → Bool)
    (db : DBState) (i : Nat) : OpResult :=
  runDeleteOp connectFails fails db (collectionPlan db i)

/-- `_delete_catalog_item` as a transaction on the database state. -/
def deleteCatalogItemOp (connectFails : Bool) (fails : Stmt → Bool)
    (db : DBState) (i : Nat) : OpResult :=
  runDeleteOp connectFails fails db (catalogPlan db i)

/-! ## The pooled `_execute_query` primitive -/

/-- A fetched row, as `aiomysql.DictCursor` returns it: a mapping from
column name to value. -/
abbrev Row := List (String × PyVal)

/-- What `_execute_query` hands back: all rows of a read statement, or the
cursor's `lastrowid` of a write statement. -/
inductive ExecResult where
  | rows (rs : List Row)
  | rowId (r : Option Nat)
  deriving DecidableEq

/-- Environment of one `_execute_query` call: whether `self.pool` is set,
whether running the statement raises, and what the cursor would yield. -/
structure ExecEnv where
  poolUp : Bool
  raises : Bool
  fetched : List Row
  lastrowid : Option Nat

/-- Python `str.strip()` on the character list: drop whitespace from both
ends. -/
def pyStrip (cs : List Char) : List Char :=
  ((cs.dropWhile Char.isWhitespace).reverse.dropWhile Char.isWhitespace).reverse

/-- Python `str.upper()` on the character list. -/
def pyUpper (cs : List Char) : List Char := cs.map Char.toUpper

/-- The dispatch test of `_execute_query`:
`query.strip().upper().startswith('SELECT')`. -/
def isSelectQuery (q : String) : Bool :=
  List.isPrefixOf "SELECT".data (pyUpper (pyStrip q.data))

/-- Body of the `try` block of `_execute_query`: acquire, execute (which
may raise), then fetch all rows for a read statement or read `lastrowid`
for a write statement. -/
def executeBody (env : ExecEnv) (q : String) : Except String ExecResult :=
  if env.raises then .error "query failed"
  else if isSelectQuery q then .ok (.rows env.fetched)
  else .ok (.rowId env.lastrowid)

/-- `_execute_query`: `None` when the pool is unset; otherwise the body's
value, with any exception caught at the boundary and turned into `None`. -/
def execute_query (env : ExecEnv) (q : String) : Option ExecResult :=
  if env.poolUp = false then Option.none
  else
    match executeBody env q with
    | .ok r => some r
    | .error _ => Option.none

/-! ## Readiness gate and the cross-thread bridge -/

/-- The Qt signals `DatabaseManager` can emit towards the caller thread. -/
inductive Event where
  | dataLoaded (tag : String)
  | errorOccurred (msg : String)
  | connected
  deriving DecidableEq

/-- The polling loop of `wait_for_loop`, time discretised into 0.1-second
sleeps: `ready t` is the `_is_loop_ready` flag at poll instant `t`, `fuel`
the number of sleeps the timeout still allows. The loop exits as soon as
the flag is seen set or the timeout elapses, and returns the flag. -/
def waitAux (ready : Nat → Bool) : Nat → Nat → Bool
  | 0, t => ready t
  | fuel + 1, t => if ready t then ready t else waitAux ready fuel (t + 1)

/-- Number of sleeps the polling loop performs before exiting. -/
def waitAuxCount (ready : Nat → Bool) : Nat → Nat → Nat
  | 0, _ => 0
  | fuel + 1, t => if ready t then 0 else waitAuxCount ready fuel (t + 1) + 1

/-- The default timeout of 5 time units at 0.1-second polls: 50 sleeps. -/
def defaultMaxPolls : Nat := 50

/-- `wait_for_loop(timeout)`: poll from instant 0 with the sleep budget the
timeout allows, and return the flag seen on exit. -/
def wait_for_loop (ready : Nat → Bool) (maxPolls : Nat) : Bool :=
  waitAux ready maxPolls 0

/-- What one synchronous entry point does before returning: which coroutine
it scheduled on the loop (by its result tag), and which signals it emitted
synchronously. Nothing else is retained, so a dropped submission is never
queued or retried. -/
structure SubmitOutcome where
  scheduled : Option String
  events : List Event
  deriving DecidableEq

/-- `connect()`: wait for the loop with the default timeout; when ready,
schedule the `_connect` coroutine; otherwise emit `error_occurred` with the
runtime-not-ready message and schedule nothing. -/
def connectOp (ready : Nat → Bool) : SubmitOutcome :=
  if wait_for_loop ready defaultMaxPolls then
    { scheduled := some "connect", events := [] }
  else
    { scheduled := Option.none, events := [Event.errorOccurred "Event loop не запущен"] }

/-- The caller-thread-visible state of `DatabaseManager` that the data
entry points consult. -/
structure MgrState where
  poolUp : Bool
  loopReady : Bool
  deriving DecidableEq

/-- The seventeen data entry points of `DatabaseManager`, each beginning
`if not self.pool: return`. -/
inductive DataOp where
  | getCollectors | getCollections | getCatalog | getStatistics
  | getCollectionTypesStats | getCountryStats | getCountries | getCollectionTypes
  | addCollector | updateCollector | deleteCollector
  | addCollection | updateCollection | deleteCollection
  | addCatalogItem | updateCatalogItem | deleteCatalogItem
  deriving DecidableEq

/-- The tag under which each operation's completion callback re-emits its
result. -/
def opTag : DataOp → String
  | .getCollectors => "collectors"
  | .getCollections => "collections"
  | .getCatalog => "catalog"
  | .getStatistics => "statistics"
  | .getCollectionTypesStats => "collection_types"
  | .getCountryStats => "country_stats"
  | .getCountries => "countries"
  | .getCollectionTypes => "collection_types_list"
  | .addCollector => "collector_added"
  | .updateCollector => "collector_updated"
  | .deleteCollector => "collector_deleted"
  | .addCollection => "collection_added"
  | .updateCollection => "collection_updated"
  | .deleteCollection => "collection_deleted"
  | .addCatalogItem => "catalog_item_added"
  | .updateCatalogItem => "catalog_item_updated"
  | .deleteCatalogItem => "catalog_item_deleted"

/-- A data entry point: when `self.pool` is unset it returns at once,
scheduling nothing and emitting nothing, with the state untouched;
otherwise it schedules the corresponding coroutine and attaches its
completion callback. -/
def submitOp (s : MgrState) (op : DataOp) : MgrState × SubmitOutcome :=
  if s.poolUp then (s, { scheduled := some (opTag op), events := [] })
  else (s, { scheduled := Option.none, events := [] })

/-! ## Connection configuration -/

/-- A keyword-argument value in a connection call. -/
inductive KwVal where
  | s (v : String)
  | n (v : Nat)
  | b (v : Bool)
  deriving DecidableEq

/-- `config.DB_CONFIG`. -/
structure DBConfigT where
  host : String
  user : String
  password : String
  db : String
  port : Nat
  charset : String
  deriving DecidableEq

/-- The static configuration of `config.py`. -/
def DB_CONFIG : DBConfigT :=
  { host := "localhost", user := "darina", password := "1308",
    db := "is21-08", port := 3306, charset := "utf8mb4" }

/-- The keyword arguments `_connect` passes to `aiomysql.create_pool`. -/
def poolCreateKwargs (cfg : DBConfigT) : List (String × KwVal) :=
  [("host", .s cfg.host), ("user", .s cfg.user), ("password", .s cfg.password),
   ("db", .s cfg.db), ("autocommit", .b true), ("minsize", .n 1), ("maxsize", .n 10)]

/-- The keyword arguments each delete transaction passes to
`aiomysql.connect` for its dedicated, non-pooled connection. -/
def txnConnectKwargs (cfg : DBConfigT) : List (String × KwVal) :=
  [("host", .s cfg.host), ("user", .s cfg.user), ("password", .s cfg.password),
   ("db", .s cfg.db), ("autocommit", .b false)]

/-! ## Insert/update parameter construction -/

/-- The `data` mapping `_add_collection` / `_update_collection` receive. -/
structure CollectionData where
  name : PyVal
  author : PyVal
  id_collection_type : PyVal
  date_of_creation : PyVal
  number_of_items : PyVal
  description : PyVal
  deriving DecidableEq

/-- The `data` mapping `_add_catalog_item` / `_update_catalog_item` receive. -/
structure CatalogData where
  name : PyVal
  rare : PyVal
  id_country : PyVal
  release_date : PyVal
  description : PyVal
  deriving DecidableEq

/-- The parameter tuple of the INSERT in `_add_collection`:
`id_collection_type` is replaced by `1` when falsy. -/
def addCollectionParams (d : CollectionData) : List PyVal :=
  let idct := if d.id_collection_type.truthy then d.id_collection_type else .int 1
  [d.name, d.author, idct, d.date_of_creation, d.number_of_items, d.description]

/-- The parameter tuple of the UPDATE in `_update_collection`: the given
values unchanged, the row id last. -/
def updateCollectionParams (cid : PyVal) (d : CollectionData) : List PyVal :=
  [d.name, d.author, d.id_collection_type, d.date_of_creation,
   d.number_of_items, d.description, cid]

/-- The parameter tuple of the INSERT in `_add_catalog_item`:
`id_country` is replaced by `1` when falsy. -/
def addCatalogParams (d : CatalogData) : List PyVal :=
  let idc := if d.id_country.truthy then d.id_country else .int 1
  [d.name, d.rare, idc, d.release_date, d.description]

/-- The parameter tuple of the UPDATE in `_update_catalog_item`: the given
values unchanged, the row id last. -/
def updateCatalogParams (iid : PyVal) (d : CatalogData) : List PyVal :=
  [d.name, d.rare, d.id_country, d.release_date, d.description, iid]

/-! ## Concrete fixtures used by witnesses -/

/-- Fold step of a transaction run: the working state after one statement. -/
def stepDb (d : DBState) (s : Stmt) : DBState := applyStmt s d

/-- A small database: collector 1 owns collection 7, which holds catalog
item 5 through collection_item 100. -/
def exDb : DBState :=
  { collectors := [1],
    collections := [{ id := 7, author := 1 }],
    collectionItems := [{ id := 100, id_collection := 7, id_catalog := 5 }],
    catalog := [5] }

/-- A database whose collection 10 has no dependent collection_items. -/
def exDb2 : DBState :=
  { collectors := [2],
    collections := [{ id := 10, author := 2 }],
    collectionItems := [],
    catalog := [] }

/-- A fault model in which exactly the collector target-row delete raises. -/
def exFails : Stmt → Bool
  | Stmt.deleteCollectorRow _ => true
  | _ => false

/-- An execute environment with a live pool and a healthy statement. -/
def exEnv : ExecEnv :=
  { poolUp := true, raises := false,
    fetched := [[("id", PyVal.int 1), ("country", PyVal.str "France")]],
    lastrowid := some 3 }

/-- Collection input whose collection-type id is the falsy `0`. -/
def exCollectionData : CollectionData :=
  { name := PyVal.str "Stamps", author := PyVal.int 1,
    id_collection_type := PyVal.int 0, date_of_creation := PyVal.str "2020-01-01",
    number_of_items := PyVal.int 12, description := PyVal.str "d" }

/-- Catalog input whose country id is the falsy `None`. -/
def exCatalogData : CatalogData :=
  { name := PyVal.str "Blue Mauritius", rare := PyVal.int 1,
    id_country := PyVal.none, release_date := PyVal.str "1847-09-21",
    description := PyVal.str "d" }

/-! ## Helper lemmas on the transaction runner -/

theorem runStmtsAux_ok (fails : Stmt → Bool) (plan : List Stmt) :
    ∀ w : DBState, (∀ s ∈ plan, fails s = false) →
      runStmtsAux fails plan w = (some (plan.foldl stepDb w), plan) := by
  induction plan with
  | nil => intro w _; rfl
  | cons s rest ih =>
      intro w h
      have hs : fails s = false := h s (List.mem_cons_self s rest)
      have hrest : ∀ x ∈ rest, fails x = false := fun x hx => h x (List.mem_cons_of_mem s hx)
      simp [runStmtsAux, hs, ih (applyStmt s w) hrest, stepDb]

theorem runStmtsAux_fail (fails : Stmt → Bool) (plan : List Stmt) :
    ∀ w : DBState, (∃ s ∈ plan, fails s = true) →
      (runStmtsAux fails plan w).1 = Option.none := by
  induction plan with
  | nil => intro w h; simp at h
  | cons s rest ih =>
      intro w h
      cases hfs : fails s with
      | true => simp [runStmtsAux, hfs]
      | false =>
          rcases h with ⟨x, hx, hfx⟩
          rcases List.mem_cons.mp hx with rfl | hx2
          · rw [hfs] at hfx; cases hfx
          · simp [runStmtsAux, hfs, ih (applyStmt s w) ⟨x, hx2, hfx⟩]

theorem runDeleteOp_ok (fails : Stmt → Bool) (db : DBState) (plan : List Stmt)
    (h : ∀ s ∈ plan, fails s = false) :
    runDeleteOp false fails db plan =
      { result := .ok true, finalDb := plan.foldl stepDb db,
        trace := plan ++ [Stmt.commit], connOpened := true, connClosed := true } := by
  simp [runDeleteOp, runStmtsAux_ok fails plan db h]

theorem runDeleteOp_fail (fails : Stmt → Bool) (db : DBState) (plan : List Stmt)
    (h : ∃ s ∈ plan, fails s = true) :
    (runDeleteOp false fails db plan).result = .raised "statement failed" ∧
    (runDeleteOp false fails db plan).finalDb = db ∧
    (runDeleteOp false fails db plan).trace.getLast? = some Stmt.rollback := by
  have h1 := runStmtsAux_fail fails plan db h
  simp [runDeleteOp, h1, List.getLast?_concat]

theorem runDeleteOp_conn (connF : Bool) (fails : Stmt → Bool) (db : DBState)
    (plan : List Stmt) :
    (runDeleteOp connF fails db plan).connOpened = !connF ∧
    ((runDeleteOp connF fails db plan).connOpened = true →
      (runDeleteOp connF fails db plan).connClosed = true) := by
  cases connF with
  | true => simp [runDeleteOp]
  | false =>
      cases h : (runStmtsAux fails plan db).1 with
      | none => simp [runDeleteOp, h]
      | some w => simp [runDeleteOp, h]

theorem itemsFold_frame (cols : List Nat) :
    ∀ db : DBState,
      ((cols.map Stmt.deleteItemsByCollection).foldl stepDb db).collections = db.collections ∧
      ((cols.map Stmt.deleteItemsByCollection).foldl stepDb db).collectors = db.collectors := by
  induction cols with
  | nil => intro db; exact ⟨rfl, rfl⟩
  | cons c cs ih => intro db; exact ih (stepDb db (Stmt.deleteItemsByCollection c))

theorem mem_itemsFold (cols : List Nat) :
    ∀ (db : DBState) (it : CollectionItemRow),
      it ∈ ((cols.map Stmt.deleteItemsByCollection).foldl stepDb db).collectionItems →
      it ∈ db.collectionItems ∧ cols.contains it.id_collection = false := by
  induction cols with
  | nil => intro db it h; exact ⟨h, rfl⟩
  | cons c cs ih =>
      intro db it h
      obtain ⟨h1, h2⟩ := ih (stepDb db (Stmt.deleteItemsByCollection c)) it h
      have h3 := List.mem_filter.mp h1
      have h4 : (it.id_collection == c) = false := by
        have h5 := h3.2
        simp at h5
        simp [h5]
      refine ⟨h3.1, ?_⟩
      simp only [List.contains_cons, h4, h2, Bool.or_self]

theorem waitAuxCount_le (ready : Nat → Bool) :
    ∀ fuel t, waitAuxCount ready fuel t ≤ fuel := by
  intro fuel
  induction fuel with
  | zero => intro t; exact Nat.le_refl 0
  | succ n ih =>
      intro t
      cases h : ready t with
      | true => simp [waitAuxCount, h]
      | false =>
          simp only [waitAuxCount, h, Bool.false_eq_true, if_false]
          exact Nat.succ_le_succ (ih (t + 1))

theorem waitAux_never (ready : Nat → Bool) :
    ∀ fuel t, (∀ u, u ≤ t + fuel → ready u = false) → waitAux ready fuel t = false := by
  intro fuel
  induction fuel with
  | zero => intro t h; exact h t (Nat.le_add_right t 0)
  | succ n ih =>
      intro t h
      have ht : ready t = false := h t (Nat.le_add_right t (n + 1))
      simp only [waitAux, ht, Bool.false_eq_true, if_false]
      exact ih (t + 1) (fun u hu => h u (by omega))

theorem collectorFold_eq (db : DBState) (i : Nat) :
    (collectorPlan db i).foldl stepDb db =
      stepDb (stepDb (((findCollections db i).map Stmt.deleteItemsByCollection).foldl stepDb db)
        (Stmt.deleteCollectionsByAuthor i)) (Stmt.deleteCollectorRow i) := by
  simp [collectorPlan, List.foldl_append, stepDb, applyStmt]

/-! ## Claim theorems -/

/-- C1: the collector-delete transaction first issues one collection_item
delete per collection of the author (before any collection is deleted),
then bulk-deletes the author's collections, then deletes the collector
row, and commits; after the successful commit no collection_item of those
collections, no collection of that collector, and no collector row remain. -/
theorem collector_delete_cascade (db : DBState) (i : Nat) :
    (deleteCollectorOp false (fun _ => false) db i).result = PyOutcome.ok true ∧
    (deleteCollectorOp false (fun _ => false) db i).trace =
      Stmt.selectCollections i ::
        ((findCollections db i).map Stmt.deleteItemsByCollection ++
          [Stmt.deleteCollectionsByAuthor i, Stmt.deleteCollectorRow i, Stmt.commit]) ∧
    ((deleteCollectorOp false (fun _ => false) db i).finalDb.collectionItems.filter
        (fun it => (findCollections db i).contains it.id_collection)) = [] ∧
    ((deleteCollectorOp false (fun _ => false) db i).finalDb.collections.filter
        (fun c => c.author == i)) = [] ∧
    (deleteCollectorOp false (fun _ => false) db i).finalDb.collectors.contains i = false := by
  have hok := runDeleteOp_ok (fun _ => false) db (collectorPlan db i) (fun _ _ => rfl)
  unfold deleteCollectorOp
  rw [hok]
  refine ⟨rfl, by simp [collectorPlan], ?_, ?_, ?_⟩
  · rw [collectorFold_eq, List.filter_eq_nil_iff]
    intro it hit
    have h2 := (mem_itemsFold (findCollections db i) db it hit).2
    simpa using h2
  · rw [collectorFold_eq]
    simp only [stepDb, applyStmt]
    rw [List.filter_filter]
    simp
  · rw [collectorFold_eq]
    simp only [stepDb, applyStmt]
    simp

/-- C2: in each of the three cascade-delete transactions, an exception in
the scan, dependency-delete or target-delete statements triggers a
rollback (the durable state is exactly the state at transaction start) and
the exception is re-raised; when no statement raises, the transaction
commits and returns `True`. -/
theorem cascade_atomicity (fails : Stmt → Bool) (db : DBState) (i : Nat) :
    ((∃ s ∈ collectorPlan db i, fails s = true) →
        (deleteCollectorOp false fails db i).result = PyOutcome.raised "statement failed" ∧
        (deleteCollectorOp false fails db i).finalDb = db ∧
        (deleteCollectorOp false fails db i).trace.getLast? = some Stmt.rollback) ∧
    ((∀ s ∈ collectorPlan db i, fails s = false) →
        (deleteCollectorOp false fails db i).result = PyOutcome.ok true ∧
        (deleteCollectorOp false fails db i).trace.getLast? = some Stmt.commit) ∧
    ((∃ s ∈ collectionPlan db i, fails s = true) →
        (deleteCollectionOp false fails db i).result = PyOutcome.raised "statement failed" ∧
        (deleteCollectionOp false fails db i).finalDb = db ∧
        (deleteCollectionOp false fails db i).trace.getLast? = some Stmt.rollback) ∧
    ((∀ s ∈ collectionPlan db i, fails s = false) →
        (deleteCollectionOp false fails db i).result = PyOutcome.ok true ∧
        (deleteCollectionOp false fails db i).trace.getLast? = some Stmt.commit) ∧
    ((∃ s ∈ catalogPlan db i, fails s = true) →
        (deleteCatalogItemOp false fails db i).result = PyOutcome.raised "statement failed" ∧
        (deleteCatalogItemOp false fails db i).finalDb = db ∧
        (deleteCatalogItemOp false fails db i).trace.getLast? = some Stmt.rollback) ∧
    ((∀ s ∈ catalogPlan db i, fails s = false) →
        (deleteCatalogItemOp false fails db i).result = PyOutcome.ok true ∧
        (deleteCatalogItemOp false fails db i).trace.getLast? = some Stmt.commit) := by
  refine ⟨fun h => runDeleteOp_fail fails db _ h, fun h => ?_,
          fun h => runDeleteOp_fail fails db _ h, fun h => ?_,
          fun h => runDeleteOp_fail fails db _ h, fun h => ?_⟩
  · unfold deleteCollectorOp
    rw [runDeleteOp_ok fails db _ h]
    exact ⟨rfl, List.getLast?_concat _⟩
  · unfold deleteCollectionOp
    rw [runDeleteOp_ok fails db _ h]
    exact ⟨rfl, List.getLast?_concat _⟩
  · unfold deleteCatalogItemOp
    rw [runDeleteOp_ok fails db _ h]
    exact ⟨rfl, List.getLast?_concat _⟩

/-- C2 witness: on `exDb`, failing exactly the collector target-row delete
(after the dependency deletes) rolls the whole transaction back: the
dependency rows still exist afterwards. -/
theorem cascade_atomicity_witness :
    (∃ s ∈ collectorPlan exDb 1, exFails s = true) ∧
    (deleteCollectorOp false exFails exDb 1).finalDb = exDb ∧
    (deleteCollectorOp false exFails exDb 1).result = PyOutcome.raised "statement failed" ∧
    (deleteCatalogItemOp false exFails exDb 5).result = PyOutcome.ok true := by
  refine ⟨by decide, ?_, ?_, ?_⟩
  · exact ((cascade_atomicity exFails exDb 1).1 (by decide)).2.1
  · exact ((cascade_atomicity exFails exDb 1).1 (by decide)).1
  · exact ((cascade_atomicity exFails exDb 5).2.2.2.2.2 (by decide)).1

/-- C3: `_execute_query` never raises past its boundary: unset pool gives
`None`; an exception during execution gives `None` for both statement
shapes; otherwise a query whose trimmed text starts case-insensitively
with SELECT yields all fetched rows and any other query yields the
cursor's last generated row id. -/
theorem execute_query_policy (env : ExecEnv) (q : String) :
    (env.poolUp = false → execute_query env q = Option.none) ∧
    (env.raises = true → execute_query env q = Option.none) ∧
    (env.poolUp = true → env.raises = false → isSelectQuery q = true →
      execute_query env q = some (ExecResult.rows env.fetched)) ∧
    (env.poolUp = true → env.raises = false → isSelectQuery q = false →
      execute_query env q = some (ExecResult.rowId env.lastrowid)) := by
  refine ⟨fun h => ?_, fun h => ?_, fun h1 h2 h3 => ?_, fun h1 h2 h3 => ?_⟩ <;>
    simp [execute_query, executeBody, *]

/-- C3 witness: on a live pool a padded lowercase select returns the rows
and an insert returns the last row id. -/
theorem execute_query_policy_witness :
    execute_query exEnv "  select * from country" = some (ExecResult.rows exEnv.fetched) ∧
    execute_query exEnv "INSERT INTO country (country) VALUES (%s)" =
      some (ExecResult.rowId exEnv.lastrowid) := by
  exact ⟨(execute_query_policy exEnv "  select * from country").2.2.1 rfl rfl (by decide),
         (execute_query_policy exEnv "INSERT INTO country (country) VALUES (%s)").2.2.2
           rfl rfl (by decide)⟩

/-- C4: in the collection-delete and catalog-item-delete transactions the
dependency delete on collection_item is issued exactly when the scanned
count is nonzero; with a zero count only the single target-row delete runs
before the commit. -/
theorem dependency_delete_iff (db : DBState) (i : Nat) :
    ((Stmt.deleteItemsByCollection i ∈ collectionPlan db i) ↔ itemCountByCollection db i ≠ 0) ∧
    ((Stmt.deleteItemsByCatalog i ∈ catalogPlan db i) ↔ itemCountByCatalog db i ≠ 0) ∧
    (itemCountByCollection db i = 0 →
      (deleteCollectionOp false (fun _ => false) db i).trace =
        [Stmt.selectItemCountByCollection i, Stmt.deleteCollectionRow i, Stmt.commit]) ∧
    (itemCountByCatalog db i = 0 →
      (deleteCatalogItemOp false (fun _ => false) db i).trace =
        [Stmt.selectItemCountByCatalog i, Stmt.deleteCatalogRow i, Stmt.commit]) := by
  refine ⟨?_, ?_, fun h => ?_, fun h => ?_⟩
  · by_cases h : itemCountByCollection db i > 0
    · exact iff_of_true (by simp [collectionPlan, h]) (Nat.pos_iff_ne_zero.mp h)
    · exact iff_of_false (by simp [collectionPlan, h])
        (by simp [Nat.eq_zero_of_not_pos h])
  · by_cases h : itemCountByCatalog db i > 0
    · exact iff_of_true (by simp [catalogPlan, h]) (Nat.pos_iff_ne_zero.mp h)
    · exact iff_of_false (by simp [catalogPlan, h])
        (by simp [Nat.eq_zero_of_not_pos h])
  · unfold deleteCollectionOp
    rw [runDeleteOp_ok (fun _ => false) db _ (fun _ _ => rfl)]
    simp [collectionPlan, h]
  · unfold deleteCatalogItemOp
    rw [runDeleteOp_ok (fun _ => false) db _ (fun _ _ => rfl)]
    simp [catalogPlan, h]

/-- C4 witness: deleting collection 10 of `exDb2` (zero dependent items)
runs only the scan, the target delete and the commit, while catalog item 5
of `exDb` (one dependent item) does get a dependency delete in its plan. -/
theorem dependency_delete_iff_witness :
    (deleteCollectionOp false (fun _ => false) exDb2 10).trace =
      [Stmt.selectItemCountByCollection 10, Stmt.deleteCollectionRow 10, Stmt.commit] ∧
    (Stmt.deleteItemsByCatalog 5 ∈ catalogPlan exDb 5) := by
  exact ⟨(dependency_delete_iff exDb2 10).2.2.1 (by decide),
         (dependency_delete_iff exDb 5).2.1.mpr (by decide)⟩

/-- C5: `wait_for_loop` performs at most the sleeps the default 5-unit
timeout allows and then returns; if the ready flag never gets set within
that window, `connect` schedules no connection coroutine and emits the
runtime-not-ready error event. -/
theorem readiness_gate (ready : Nat → Bool) :
    waitAuxCount ready defaultMaxPolls 0 ≤ defaultMaxPolls ∧
    ((∀ t, t ≤ defaultMaxPolls → ready t = false) →
      wait_for_loop ready defaultMaxPolls = false ∧
      (connectOp ready).scheduled = Option.none ∧
      (connectOp ready).events = [Event.errorOccurred "Event loop не запущен"]) := by
  refine ⟨waitAuxCount_le ready defaultMaxPolls 0, fun h => ?_⟩
  have hw : wait_for_loop ready defaultMaxPolls = false :=
    waitAux_never ready defaultMaxPolls 0 (fun u hu => h u (by omega))
  refine ⟨hw, ?_, ?_⟩ <;> simp [connectOp, hw]

/-- C5 witness: with the flag never set, connect emits the error event and
schedules nothing. -/
theorem readiness_gate_witness :
    (connectOp (fun _ => false)).scheduled = Option.none ∧
    (connectOp (fun _ => false)).events = [Event.errorOccurred "Event loop не запущен"] := by
  have h := (readiness_gate (fun _ => false)).2 (fun t _ => rfl)
  exact ⟨h.2.1, h.2.2⟩

/-- C6: every data entry point is a silent no-op when the pool is unset:
the state is unchanged, no coroutine is scheduled, no signal is emitted. -/
theorem pool_guard_noop (s : MgrState) (op : DataOp) (h : s.poolUp = false) :
    submitOp s op = (s, { scheduled := Option.none, events := [] }) := by
  simp [submitOp, h]

/-- C6 witness: `get_statistics` with the pool unset. -/
theorem pool_guard_noop_witness :
    submitOp { poolUp := false, loopReady := true } DataOp.getStatistics =
      ({ poolUp := false, loopReady := true },
        { scheduled := Option.none, events := [] }) :=
  pool_guard_noop { poolUp := false, loopReady := true } DataOp.getStatistics rfl

/-- C7 counterexample: `get_collectors` submitted while the Runtime is
unready (so the pool is unset) is dropped without any error event —
refuting the claim that every Bridge operation rejected for an unready
Runtime emits an error event. -/
theorem bridge_unready_counterexample :
    (submitOp { poolUp := false, loopReady := false } DataOp.getCollectors).2.scheduled =
      Option.none ∧
    (submitOp { poolUp := false, loopReady := false } DataOp.getCollectors).2.events = [] := by
  decide

/-- C7 amended: only `connect` rejects an unready-Runtime submission with
the error event; the data entry points, which test the pool instead, drop
the submission silently; in both cases nothing is scheduled, so nothing is
queued or retried later. -/
theorem bridge_unready_amended (ready : Nat → Bool) (s : MgrState) (op : DataOp) :
    ((∀ t, t ≤ defaultMaxPolls → ready t = false) →
      (connectOp ready).scheduled = Option.none ∧
      (connectOp ready).events = [Event.errorOccurred "Event loop не запущен"]) ∧
    (s.poolUp = false →
      (submitOp s op).2.scheduled = Option.none ∧ (submitOp s op).2.events = []) := by
  constructor
  · intro h
    have hw : wait_for_loop ready defaultMaxPolls = false :=
      waitAux_never ready defaultMaxPolls 0 (fun u hu => h u (by omega))
    constructor <;> simp [connectOp, hw]
  · intro h
    constructor <;> simp [submitOp, h]

/-- C7 amended witness: the never-ready connect and a pool-down getter. -/
theorem bridge_unready_amended_witness :
    (connectOp (fun _ => false)).events = [Event.errorOccurred "Event loop не запущен"] ∧
    (submitOp { poolUp := false, loopReady := false } DataOp.getCatalog).2.events = [] := by
  exact ⟨((bridge_unready_amended (fun _ => false)
            { poolUp := false, loopReady := false } DataOp.getCatalog).1 (fun t _ => rfl)).2,
         ((bridge_unready_amended (fun _ => false)
            { poolUp := false, loopReady := false } DataOp.getCatalog).2 rfl).2⟩

/-- C8: every cascade delete runs on a dedicated connection opened with
autocommit disabled (unlike the autocommit pool), the connection is opened
exactly when the connect step succeeds, and an opened connection is closed
on every outcome path by the final step. -/
theorem dedicated_connection_policy (connF : Bool) (fails : Stmt → Bool)
    (db : DBState) (i : Nat) :
    (("autocommit", KwVal.b false) ∈ txnConnectKwargs DB_CONFIG) ∧
    (("autocommit", KwVal.b true) ∈ poolCreateKwargs DB_CONFIG) ∧
    ((deleteCollectorOp connF fails db i).connOpened = !connF ∧
      ((deleteCollectorOp connF fails db i).connOpened = true →
        (deleteCollectorOp connF fails db i).connClosed = true)) ∧
    ((deleteCollectionOp connF fails db i).connOpened = !connF ∧
      ((deleteCollectionOp connF fails db i).connOpened = true →
        (deleteCollectionOp connF fails db i).connClosed = true)) ∧
    ((deleteCatalogItemOp connF fails db i).connOpened = !connF ∧
      ((deleteCatalogItemOp connF fails db i).connOpened = true →
        (deleteCatalogItemOp connF fails db i).connClosed = true)) := by
  exact ⟨by decide, by decide,
    runDeleteOp_conn connF fails db _, runDeleteOp_conn connF fails db _,
    runDeleteOp_conn connF fails db _⟩

/-- C8 witness: a concrete failing collector delete still closes its
dedicated connection. -/
theorem dedicated_connection_policy_witness :
    (deleteCollectorOp false exFails exDb 1).connClosed = true :=
  ((dedicated_connection_policy false exFails exDb 1).2.2.1).2 (by decide)

/-- C9 counterexample: neither the pool creation nor the dedicated
transaction connections pass the configured port or character set — the
keyword arguments carry no `port` and no `charset` entry at all. -/
theorem connection_config_counterexample :
    ((poolCreateKwargs DB_CONFIG).lookup "port" = Option.none) ∧
    ((poolCreateKwargs DB_CONFIG).lookup "charset" = Option.none) ∧
    ((txnConnectKwargs DB_CONFIG).lookup "port" = Option.none) ∧
    ((txnConnectKwargs DB_CONFIG).lookup "charset" = Option.none) := by
  decide

/-- C9 amended: every connection is opened with the statically configured
host, user, password and database name (but not the configured port or
character set, which are never passed), and the pool is created with
minimum 1 and maximum 10 connections and autocommit enabled. -/
theorem connection_config_amended :
    (("host", KwVal.s DB_CONFIG.host) ∈ poolCreateKwargs DB_CONFIG) ∧
    (("user", KwVal.s DB_CONFIG.user) ∈ poolCreateKwargs DB_CONFIG) ∧
    (("password", KwVal.s DB_CONFIG.password) ∈ poolCreateKwargs DB_CONFIG) ∧
    (("db", KwVal.s DB_CONFIG.db) ∈ poolCreateKwargs DB_CONFIG) ∧
    (("autocommit", KwVal.b true) ∈ poolCreateKwargs DB_CONFIG) ∧
    (("minsize", KwVal.n 1) ∈ poolCreateKwargs DB_CONFIG) ∧
    (("maxsize", KwVal.n 10) ∈ poolCreateKwargs DB_CONFIG) ∧
    (("host", KwVal.s DB_CONFIG.host) ∈ txnConnectKwargs DB_CONFIG) ∧
    (("user", KwVal.s DB_CONFIG.user) ∈ txnConnectKwargs DB_CONFIG) ∧
    (("password", KwVal.s DB_CONFIG.password) ∈ txnConnectKwargs DB_CONFIG) ∧
    (("db", KwVal.s DB_CONFIG.db) ∈ txnConnectKwargs DB_CONFIG) ∧
    ((poolCreateKwargs DB_CONFIG).lookup "port" = Option.none) ∧
    ((txnConnectKwargs DB_CONFIG).lookup "charset" = Option.none) := by
  decide

/-- C10: the add-collection insert replaces a falsy collection-type id by
`1` and the add-catalog-item insert replaces a falsy country id by `1`,
while the corresponding updates pass the given value through unchanged. -/
theorem falsy_id_substitution (cd : CollectionData) (kd : CatalogData) (cid iid : PyVal) :
    (cd.id_collection_type.truthy = false →
      (addCollectionParams cd)[2]? = some (PyVal.int 1)) ∧
    (cd.id_collection_type.truthy = true →
      (addCollectionParams cd)[2]? = some cd.id_collection_type) ∧
    ((updateCollectionParams cid cd)[2]? = some cd.id_collection_type) ∧
    (kd.id_country.truthy = false → (addCatalogParams kd)[2]? = some (PyVal.int 1)) ∧
    (kd.id_country.truthy = true → (addCatalogParams kd)[2]? = some kd.id_country) ∧
    ((updateCatalogParams iid kd)[2]? = some kd.id_country) := by
  refine ⟨fun h => ?_, fun h => ?_, rfl, fun h => ?_, fun h => ?_, rfl⟩ <;>
    simp [addCollectionParams, addCatalogParams, h]

/-- C10 witness: a zero collection-type id and a null country id are both
replaced by 1 in the insert parameter tuples. -/
theorem falsy_id_substitution_witness :
    (addCollectionParams exCollectionData)[2]? = some (PyVal.int 1) ∧
    (addCatalogParams exCatalogData)[2]? = some (PyVal.int 1) := by
  exact ⟨(falsy_id_substitution exCollectionData exCatalogData PyVal.none PyVal.none).1 rfl,
         (falsy_id_substitution exCollectionData exCatalogData PyVal.none
           PyVal.none).2.2.2.1 rfl⟩

end Collectors
